import Mathlib

/-!
# Metro Tracker service worker (`sw.js`)

A shallow embedding of the service worker's three event handlers and its two
fetch strategies, followed by the properties proved about them.

Modelling conventions.

* A promise is represented by the way it settles (`Settled`): fulfilled with a
  value, or rejected.  The network is an input: the handlers receive the
  settlement of `fetch(request)`.
* `CacheStorage` (the global `caches`) is an explicit value threaded through
  the handlers.  A handler returns the response it hands to the page together
  with the storage as it stands once every write the handler started
  (including the ones it does not await) has been applied.
* The platform's request matching is equality of requests.  `cache.put`
  stores a pair only when the platform accepts it (`putAccepts`); otherwise
  its promise rejects and nothing is written.  The handlers never await or
  catch that promise, so its settlement is dropped.
* `Response.headers` is the header list of the response object; the
  `Response` constructor (`newResponse`) adds the default Content-Type of a
  string body when the caller sets none.
-/

namespace MetroTracker

/-! ## Data model -/

/-- Components of a parsed URL, as exposed by the `URL` object. -/
structure URL where
  protocol : String
  hostname : String
  port : String
  pathname : String
  search : String
  deriving DecidableEq, Repr

/-- An intercepted request: its method and its (parsed) URL. -/
structure Request where
  method : String
  url : URL
  deriving DecidableEq, Repr

/-- A response: status code, the header list it was built or received with,
and its body. -/
structure Response where
  status : Nat
  headers : List (String × String)
  body : String
  deriving DecidableEq, Repr

/-- The `response.ok` getter: the status is in the range 200..299. -/
def Response.ok (response : Response) : Bool :=
  decide (200 ≤ response.status) && decide (response.status ≤ 299)

/-- How a promise settles. -/
inductive Settled (α : Type) where
  | fulfilled (value : α)
  | rejected
  deriving DecidableEq, Repr

/-- One cache: its entries (request, stored response), oldest first. -/
abbrev Cache := List (Request × Response)

/-- The global `caches` object: named caches, in creation order. -/
abbrev CacheStorage := List (String × Cache)

/-! ## Platform operations on caches -/

/-- The operation `cache.match(request)`: the stored response of the first
entry whose request matches, `none` (JavaScript `undefined`) when there is
none. -/
def cacheMatch (cache : Cache) (request : Request) : Option Response :=
  (cache.find? (fun e => e.1 == request)).map (fun e => e.2)

/-- Lower-cased characters of a header name (header names are compared without
regard to case). -/
def lowerName (name : String) : List Char :=
  name.data.map Char.toLower

/-- Whether the header pair carries the (lower-case) name `name`. -/
def headerIs (name : String) (h : String × String) : Bool :=
  lowerName h.1 == name.data

/-- The comma separated members of a header value. -/
def splitOnComma : List Char → List (List Char)
  | [] => [[]]
  | c :: cs =>
    match splitOnComma cs with
    | [] => [[]]
    | w :: ws => if c = ',' then [] :: w :: ws else (c :: w) :: ws

/-- A header value member without its leading and trailing blanks. -/
def trimBlanks (cs : List Char) : List Char :=
  (((cs.dropWhile (fun c => c = ' ' || c.toNat = 9)).reverse).dropWhile
    (fun c => c = ' ' || c.toNat = 9)).reverse

/-- Whether the response has a `Vary` header with a member `*`. -/
def varyStar (response : Response) : Bool :=
  response.headers.any (fun h =>
    headerIs "vary" h && (splitOnComma h.2.data).any (fun v => trimBlanks v == ['*']))

/-- The pairs `cache.put(request, response)` accepts.  The platform rejects the
call with a TypeError, storing nothing, when the request URL is not http(s),
when the request method is not GET, when the response status is 206 and when
the response has a `Vary: *` header. -/
def putAccepts (request : Request) (response : Response) : Bool :=
  (request.url.protocol == "http:" || request.url.protocol == "https:") &&
  request.method == "GET" &&
  !(response.status == 206) &&
  !(varyStar response)

/-- The write step of an accepted `cache.put(request, response)`: any entry for
the request is dropped and the new pair is added. -/
def cacheReplace (cache : Cache) (request : Request) (response : Response) : Cache :=
  cache.filter (fun e => !(e.1 == request)) ++ [(request, response)]

/-- The operation `cache.put(request, response)` on the entries of one cache:
how its promise settles, and the entries afterwards. -/
def cachePut (cache : Cache) (request : Request) (response : Response) :
    Settled Unit × Cache :=
  if putAccepts request response then (.fulfilled (), cacheReplace cache request response)
  else (.rejected, cache)

/-- The operation `caches.keys()`: the names of the existing caches. -/
def cachesKeys (S : CacheStorage) : List String :=
  S.map (fun e => e.1)

/-- The operation `caches.has(name)`. -/
def cachesHas (S : CacheStorage) (name : String) : Bool :=
  S.any (fun e => e.1 == name)

/-- The operation `caches.open(name)`: the cache is created empty when it does
not exist yet.  The handle it returns is the name. -/
def cachesOpen (S : CacheStorage) (name : String) : CacheStorage :=
  if cachesHas S name then S else S ++ [(name, [])]

/-- The operation `caches.delete(name)`. -/
def cachesDelete (S : CacheStorage) (name : String) : CacheStorage :=
  S.filter (fun e => !(e.1 == name))

/-- Entries of the cache called `name` (no entries when there is no such
cache). -/
def storeOf (S : CacheStorage) (name : String) : Cache :=
  match S.find? (fun e => e.1 == name) with
  | some e => e.2
  | none => []

/-- The operation `cache.match(request)` through the handle of cache `name`. -/
def storeMatch (S : CacheStorage) (name : String) (request : Request) : Option Response :=
  cacheMatch (storeOf S name) request

/-- The write step of an accepted put through the handle of cache `name`. -/
def storeReplace (S : CacheStorage) (name : String) (request : Request) (response : Response) :
    CacheStorage :=
  S.map (fun e => if e.1 == name then (e.1, cacheReplace e.2 request response) else e)

/-- The operation `cache.put(request, response)` through the handle of cache
`name`: how its promise settles, and the storage afterwards. -/
def storePut (S : CacheStorage) (name : String) (request : Request) (response : Response) :
    Settled Unit × CacheStorage :=
  (if putAccepts request response then .fulfilled () else .rejected,
   S.map (fun e => if e.1 == name then (e.1, (cachePut e.2 request response).2) else e))

/-- The constructor `new Response(body, { status, headers })` for a string
body: when `headers` names no Content-Type, the constructor adds the type of a
string body, `text/plain;charset=UTF-8`. -/
def newResponse (body : String) (status : Nat) (headers : List (String × String)) : Response :=
  { status := status
    headers :=
      if headers.any (headerIs "content-type") then headers
      else headers ++ [("Content-Type", "text/plain;charset=UTF-8")]
    body := body }

/-! ## `JSON.stringify` on an object with string-valued properties -/

/-- Lower-case hexadecimal digit. -/
def hexDigit (n : Nat) : Char :=
  if n < 10 then Char.ofNat (48 + n) else Char.ofNat (87 + n)

/-- Escaping of one character inside a JSON string. -/
def jsonEscapeChar (c : Char) : List Char :=
  if c.toNat = 34 then [Char.ofNat 92, Char.ofNat 34]
  else if c.toNat = 92 then [Char.ofNat 92, Char.ofNat 92]
  else if c.toNat = 8 then [Char.ofNat 92, 'b']
  else if c.toNat = 9 then [Char.ofNat 92, 't']
  else if c.toNat = 10 then [Char.ofNat 92, 'n']
  else if c.toNat = 12 then [Char.ofNat 92, 'f']
  else if c.toNat = 13 then [Char.ofNat 92, 'r']
  else if c.toNat < 32 then
    [Char.ofNat 92, 'u', '0', '0', hexDigit (c.toNat / 16), hexDigit (c.toNat % 16)]
  else [c]

/-- A string as a JSON string literal. -/
def jsonQuote (s : String) : List Char :=
  Char.ofNat 34 :: (s.data.flatMap jsonEscapeChar ++ [Char.ofNat 34])

/-- The members of a JSON object, comma separated. -/
def jsonMembers : List (String × String) → List Char
  | [] => []
  | [kv] => jsonQuote kv.1 ++ ':' :: jsonQuote kv.2
  | kv :: rest => jsonQuote kv.1 ++ ':' :: jsonQuote kv.2 ++ ',' :: jsonMembers rest

/-- The call `JSON.stringify(obj)` for an object literal whose properties are
strings, given as its (key, value) pairs in order. -/
def JSON_stringify (obj : List (String × String)) : String :=
  String.mk (Char.ofNat 123 :: (jsonMembers obj ++ [Char.ofNat 125]))

/-! ## The service worker -/

/-- Name of the current cache generation. -/
def CACHE_NAME : String := "metro-tracker-v1"

/-- URLs of the app shell, pre-cached on install. -/
def APP_SHELL : List String := ["./", "./index.html", "./manifest.webmanifest"]

/-- A handled fetch: the response given to the page and the cache storage once
the writes the handler started have been applied. -/
structure Handled where
  response : Response
  storage : CacheStorage
  deriving DecidableEq, Repr

/-- The response `networkFirst` builds when the network failed and nothing is
cached. -/
def offlineJsonResponse : Response :=
  newResponse (JSON_stringify [("error", "Offline — no cached data available")])
    503 [("Content-Type", "application/json")]

/-- The response `cacheFirst` builds when the network failed and nothing is
cached: `new Response('Offline', { status: 503 })`. -/
def offlineTextResponse : Response :=
  newResponse "Offline" 503 []

/-- Network-first: try network, fall back to cache.  `net` is the settlement
of `fetch(request)`. -/
def networkFirst (request : Request) (net : Settled Response) (S : CacheStorage) : Handled :=
  let S1 := cachesOpen S CACHE_NAME
  match net with
  | .fulfilled response =>
    if response.ok then
      { response := response, storage := (storePut S1 CACHE_NAME request response).2 }
    else
      { response := response, storage := S1 }
  | .rejected =>
    match storeMatch S1 CACHE_NAME request with
    | some cached => { response := cached, storage := S1 }
    | none => { response := offlineJsonResponse, storage := S1 }

/-- The detached chain
`fetch(request).then(response => { if (response.ok) cache.put(request, response) }).catch(() => {})`
of `cacheFirst`: how the chain settles, and the storage afterwards. -/
def backgroundRefresh (request : Request) (net : Settled Response) (S1 : CacheStorage) :
    Settled Unit × CacheStorage :=
  let afterThen : Settled Unit × CacheStorage :=
    match net with
    | .fulfilled response =>
      if response.ok then (.fulfilled (), (storePut S1 CACHE_NAME request response).2)
      else (.fulfilled (), S1)
    | .rejected => (.rejected, S1)
  match afterThen with
  | (.fulfilled v, S2) => (.fulfilled v, S2)
  | (.rejected, S2) => (.fulfilled (), S2)

/-- Cache-first: try cache, fall back to network (and update cache).  `net` is
the settlement of `fetch(request)`. -/
def cacheFirst (request : Request) (net : Settled Response) (S : CacheStorage) : Handled :=
  let S1 := cachesOpen S CACHE_NAME
  match storeMatch S1 CACHE_NAME request with
  | some cached =>
    { response := cached, storage := (backgroundRefresh request net S1).2 }
  | none =>
    match net with
    | .fulfilled response =>
      if response.ok then
        { response := response, storage := (storePut S1 CACHE_NAME request response).2 }
      else
        { response := response, storage := S1 }
    | .rejected => { response := offlineTextResponse, storage := S1 }

/-- The fetch listener: requests to the WMATA API go network-first, everything
else cache-first. -/
def onFetch (request : Request) (net : Settled Response) (S : CacheStorage) : Handled :=
  if request.url.hostname = "api.wmata.com" then networkFirst request net S
  else cacheFirst request net S

/-- The activate listener: every cache whose name is not `CACHE_NAME` is
deleted. -/
def onActivate (S : CacheStorage) : CacheStorage :=
  ((cachesKeys S).filter (fun key => key != CACHE_NAME)).foldl cachesDelete S

/-- The operation `cache.addAll(requests)` through the handle of cache `name`:
every request is fetched; when one fetch is rejected, answers with a status
that is not ok, or gives a pair `cache.put` does not accept, the call rejects
and writes nothing, otherwise every response is stored. -/
def storeAddAll (S : CacheStorage) (name : String) (requests : List Request)
    (net : Request → Settled Response) : Settled Unit × CacheStorage :=
  let fetched := requests.map (fun r => (r, net r))
  if fetched.all (fun p => match p.2 with
      | .fulfilled response => response.ok && putAccepts p.1 response
      | .rejected => false) then
    (.fulfilled (), fetched.foldl (fun acc p => match p.2 with
      | .fulfilled response => storeReplace acc name p.1 response
      | .rejected => acc) S)
  else (.rejected, S)

/-- The install listener: open the current cache and pre-cache the app shell.
`resolve` turns an app-shell URL into the request fetched for it and `net`
gives the settlement of each fetch. -/
def onInstall (resolve : String → Request) (net : Request → Settled Response)
    (S : CacheStorage) : Settled Unit × CacheStorage :=
  storeAddAll (cachesOpen S CACHE_NAME) CACHE_NAME (APP_SHELL.map resolve) net

/-! ## Sample values -/

/-- A request to the WMATA API. -/
def apiRequest : Request :=
  { method := "GET"
    url := { protocol := "https:", hostname := "api.wmata.com", port := "",
             pathname := "/StationPrediction.svc/json/GetPrediction/A01", search := "" } }

/-- Another request to the WMATA API host: other scheme, port, path, query and
method. -/
def apiPostRequest : Request :=
  { method := "POST"
    url := { protocol := "http:", hostname := "api.wmata.com", port := "8080",
             pathname := "/Rail.svc/json/jStations", search := "?LineCode=RD" } }

/-- A request for the app shell page. -/
def shellRequest : Request :=
  { method := "GET"
    url := { protocol := "https:", hostname := "chrismalc.github.io", port := "",
             pathname := "/Metro-Tracker/index.html", search := "" } }

/-- A successful response. -/
def okResponse : Response :=
  { status := 200, headers := [("Content-Type", "text/html")], body := "fresh" }

/-- An older successful response. -/
def staleResponse : Response :=
  { status := 200, headers := [("Content-Type", "text/html")], body := "stale" }

/-- A response with a status that is not ok. -/
def notFoundResponse : Response :=
  { status := 404, headers := [], body := "Not Found" }

/-- A partial-content response: its status is ok, and `cache.put` refuses
it. -/
def partialResponse : Response :=
  { status := 206, headers := [("Content-Range", "bytes 0-4/5")], body := "fresh" }

/-- A storage holding only the current cache, empty. -/
def emptyCurrent : CacheStorage := [(CACHE_NAME, [])]

/-- A storage whose current cache stores `staleResponse` for both sample
requests, next to a cache of an older generation. -/
def warmStorage : CacheStorage :=
  [("metro-tracker-v0", [(shellRequest, staleResponse)]),
   (CACHE_NAME, [(apiRequest, staleResponse), (shellRequest, staleResponse)])]

/-! ## Lemmas on the platform operations -/

theorem cacheMatch_cacheReplace_same (cache : Cache) (request : Request) (response : Response) :
    cacheMatch (cacheReplace cache request response) request = some response := by
  unfold cacheMatch cacheReplace
  rw [List.find?_append]
  have hnone : List.find? (fun e => e.1 == request)
      (List.filter (fun e => !(e.1 == request)) cache) = none := by
    rw [List.find?_eq_none]
    intro e he
    have := (List.mem_filter.mp he).2
    simpa using this
  simp [hnone]

theorem find?_filter_other (cache : Cache) (request other : Request) (hne : other ≠ request) :
    (cache.filter (fun e => !(e.1 == request))).find? (fun e => e.1 == other)
      = cache.find? (fun e => e.1 == other) := by
  induction cache with
  | nil => rfl
  | cons e rest ih =>
    cases hr : (e.1 == request) <;> cases ho : (e.1 == other)
    · simp only [List.filter_cons, List.find?_cons, hr, ho, Bool.not_false, if_true, ih]
    · simp only [List.filter_cons, List.find?_cons, hr, ho, Bool.not_false, if_true]
    · simp only [List.filter_cons, List.find?_cons, hr, ho, Bool.not_true, Bool.false_eq_true,
        if_false, ih]
    · exact absurd ((eq_of_beq ho).symm.trans (eq_of_beq hr)) hne

theorem cacheMatch_cacheReplace_other (cache : Cache) (request other : Request)
    (response : Response) (hne : other ≠ request) :
    cacheMatch (cacheReplace cache request response) other = cacheMatch cache other := by
  unfold cacheMatch cacheReplace
  have hb : (request == other) = false := by
    cases h : (request == other)
    · rfl
    · exact absurd (eq_of_beq h).symm hne
  rw [List.find?_append, find?_filter_other cache request other hne]
  simp only [List.find?_cons, hb, List.find?_nil, Option.or_none]

theorem cachesHas_iff_mem_keys (S : CacheStorage) (name : String) :
    cachesHas S name = true ↔ name ∈ cachesKeys S := by
  unfold cachesHas cachesKeys
  simp only [List.any_eq_true, List.mem_map, beq_iff_eq]

theorem cachesOpen_of_has (S : CacheStorage) (name : String) (h : cachesHas S name = true) :
    cachesOpen S name = S := by
  simp [cachesOpen, h]

theorem cachesHas_cachesOpen (S : CacheStorage) (name : String) :
    cachesHas (cachesOpen S name) name = true := by
  unfold cachesOpen
  by_cases h : cachesHas S name = true
  · simp [h]
  · simp only [h]
    simp [cachesHas]

theorem storeOf_of_not_has (S : CacheStorage) (name : String) (h : ¬ cachesHas S name = true) :
    storeOf S name = [] := by
  unfold storeOf
  have hnone : S.find? (fun e => e.1 == name) = none := by
    rw [List.find?_eq_none]
    intro e he hbeq
    exact h (List.any_eq_true.mpr ⟨e, he, hbeq⟩)
  rw [hnone]

theorem storeOf_cachesOpen (S : CacheStorage) (name other : String) :
    storeOf (cachesOpen S name) other = storeOf S other := by
  by_cases h : cachesHas S name = true
  · rw [cachesOpen_of_has S name h]
  · have hopen : cachesOpen S name = S ++ [(name, [])] := by simp [cachesOpen, h]
    rw [hopen]
    unfold storeOf
    rw [List.find?_append]
    cases hf : S.find? (fun e => e.1 == other) with
    | some e => rfl
    | none =>
      cases hb : (name == other) <;>
        simp only [List.find?_cons, hb, List.find?_nil, Option.none_or]

theorem cachesHas_of_storeMatch (S : CacheStorage) (name : String) (request : Request)
    (snap : Response) (h : storeMatch S name request = some snap) :
    cachesHas S name = true := by
  by_contra hno
  rw [storeMatch, storeOf_of_not_has S name hno] at h
  simp [cacheMatch] at h

theorem find?_storeReplace (S : CacheStorage) (name other : String) (request : Request)
    (response : Response) :
    (storeReplace S name request response).find? (fun e => e.1 == other)
      = (S.find? (fun e => e.1 == other)).map
          (fun e => if e.1 == name then (e.1, cacheReplace e.2 request response) else e) := by
  unfold storeReplace
  induction S with
  | nil => rfl
  | cons e rest ih =>
    rw [List.map_cons]
    have hfst : (if e.1 == name then (e.1, cacheReplace e.2 request response) else e).1 = e.1 := by
      cases hn : (e.1 == name) <;> simp
    cases ho : (e.1 == other)
    · simp only [List.find?_cons, hfst, ho, ih]
    · simp only [List.find?_cons, hfst, ho, Option.map_some']

theorem storeOf_storeReplace_same (S : CacheStorage) (name : String) (request : Request)
    (response : Response) (h : cachesHas S name = true) :
    storeOf (storeReplace S name request response) name
      = cacheReplace (storeOf S name) request response := by
  unfold storeOf
  rw [find?_storeReplace]
  cases hf : S.find? (fun e => e.1 == name) with
  | none =>
    rw [List.find?_eq_none] at hf
    obtain ⟨e, he, hbeq⟩ := List.any_eq_true.mp h
    exact absurd hbeq (hf e he)
  | some e =>
    have hname : (e.1 == name) = true :=
      List.find?_some (p := fun e : String × Cache => e.1 == name) hf
    simp only [Option.map_some', hname, if_true]

theorem storeOf_storeReplace_other (S : CacheStorage) (name other : String) (request : Request)
    (response : Response) (hne : other ≠ name) :
    storeOf (storeReplace S name request response) other = storeOf S other := by
  unfold storeOf
  rw [find?_storeReplace]
  cases hf : S.find? (fun e => e.1 == other) with
  | none => rfl
  | some e =>
    have hother : (e.1 == other) = true :=
      List.find?_some (p := fun e : String × Cache => e.1 == other) hf
    have hname : (e.1 == name) = false := by
      cases hn : (e.1 == name)
      · rfl
      · exact absurd ((eq_of_beq hother).symm.trans (eq_of_beq hn)) hne
    simp only [Option.map_some', hname, Bool.false_eq_true, if_false]

theorem cachesKeys_storeReplace (S : CacheStorage) (name : String) (request : Request)
    (response : Response) :
    cachesKeys (storeReplace S name request response) = cachesKeys S := by
  unfold cachesKeys storeReplace
  rw [List.map_map]
  apply List.map_congr_left
  intro e _
  by_cases h : e.1 = name <;> simp [h]

theorem foldl_cachesDelete (names : List String) (S : CacheStorage) :
    names.foldl cachesDelete S = S.filter (fun e => decide (e.1 ∉ names)) := by
  induction names generalizing S with
  | nil => simp
  | cons k rest ih =>
    rw [List.foldl_cons, ih, cachesDelete, List.filter_filter]
    apply List.filter_congr
    intro e _
    by_cases h1 : e.1 = k <;> by_cases h2 : e.1 ∈ rest <;> simp [h1, h2]

theorem onActivate_eq_filter (S : CacheStorage) :
    onActivate S = S.filter (fun e => e.1 == CACHE_NAME) := by
  unfold onActivate
  rw [foldl_cachesDelete]
  apply List.filter_congr
  intro e he
  have hk : e.1 ∈ cachesKeys S := List.mem_map.mpr ⟨e, he, rfl⟩
  by_cases h1 : e.1 = CACHE_NAME
  · simp [h1]
  · simp [h1, hk]

theorem cachesKeys_onActivate (S : CacheStorage) :
    cachesKeys (onActivate S) = (cachesKeys S).filter (fun k => k == CACHE_NAME) := by
  rw [onActivate_eq_filter]
  unfold cachesKeys
  induction S with
  | nil => simp
  | cons e rest ih =>
    by_cases h : e.1 = CACHE_NAME <;> simp [List.filter_cons, h, ih]

theorem storeOf_onActivate_current (S : CacheStorage) :
    storeOf (onActivate S) CACHE_NAME = storeOf S CACHE_NAME := by
  rw [onActivate_eq_filter]
  unfold storeOf
  induction S with
  | nil => simp
  | cons e rest ih =>
    by_cases h : e.1 = CACHE_NAME
    · simp [List.filter_cons, List.find?_cons, h]
    · simpa [List.filter_cons, List.find?_cons, h] using ih

theorem storeMatch_cachesOpen (S : CacheStorage) (name other : String) (request : Request) :
    storeMatch (cachesOpen S name) other request = storeMatch S other request := by
  unfold storeMatch
  rw [storeOf_cachesOpen]

theorem storeMatch_storeReplace_same (S : CacheStorage) (name : String) (request : Request)
    (response : Response) (h : cachesHas S name = true) :
    storeMatch (storeReplace S name request response) name request = some response := by
  unfold storeMatch
  rw [storeOf_storeReplace_same S name request response h, cacheMatch_cacheReplace_same]

theorem storeMatch_storeReplace_other (S : CacheStorage) (name : String) (request other : Request)
    (response : Response) (h : cachesHas S name = true) (hne : other ≠ request) :
    storeMatch (storeReplace S name request response) name other = storeMatch S name other := by
  unfold storeMatch
  rw [storeOf_storeReplace_same S name request response h, cacheMatch_cacheReplace_other _ _ _ _ hne]

theorem offlineJson_body :
    offlineJsonResponse.body = "\x7b\"error\":\"Offline — no cached data available\"\x7d" := by
  decide

theorem offlineJson_headers :
    offlineJsonResponse.headers = [("Content-Type", "application/json")] := by
  decide

theorem offlineText_eq :
    offlineTextResponse
      = { status := 503, headers := [("Content-Type", "text/plain;charset=UTF-8")],
          body := "Offline" } := by
  decide

/-- What `cache.put` accepts, on samples: a GET over https with a 200 is
accepted, also with a `Vary` header naming a request header; a POST, a 206, a
`Vary` header with a member `*` and a URL that is not http(s) are refused. -/
theorem putAccepts_samples :
    putAccepts shellRequest okResponse = true ∧
    putAccepts shellRequest
      { status := 200, headers := [("vary", "Accept-Encoding")], body := "" } = true ∧
    putAccepts apiPostRequest okResponse = false ∧
    putAccepts shellRequest partialResponse = false ∧
    putAccepts shellRequest
      { status := 200, headers := [("Vary", "Accept-Encoding, *")], body := "" } = false ∧
    putAccepts
      { method := "GET"
        url := { protocol := "chrome-extension:", hostname := "abc", port := "",
                 pathname := "/page.html", search := "" } } okResponse = false := by
  decide

theorem storePut_accepted (S : CacheStorage) (name : String) (request : Request)
    (response : Response) (hacc : putAccepts request response = true) :
    (storePut S name request response).2 = storeReplace S name request response := by
  simp only [storePut, cachePut, storeReplace, hacc, if_true]

theorem storePut_refused (S : CacheStorage) (name : String) (request : Request)
    (response : Response) (hacc : putAccepts request response = false) :
    (storePut S name request response).2 = S := by
  simp only [storePut, cachePut, hacc, Bool.false_eq_true, if_false]
  have hid : ∀ e ∈ S, (fun e : String × Cache => if e.1 == name then (e.1, e.2) else e) e
      = id e := by
    intro e _
    by_cases h : (e.1 == name) = true <;> simp [h]
  rw [List.map_congr_left hid, List.map_id]

/-! ## The fetch listener -/

/-- C1: the fetch listener dispatches on the hostname of the request URL alone.
A request whose hostname is `api.wmata.com` is answered by `networkFirst`,
every other request by `cacheFirst`, and two requests with the same hostname
are handled by the same strategy, whatever the rest of the URL and the
method. -/
theorem onFetch_dispatch_on_hostname :
    (∀ (request : Request) (net : Settled Response) (S : CacheStorage),
        request.url.hostname = "api.wmata.com" →
          onFetch request net S = networkFirst request net S) ∧
    (∀ (request : Request) (net : Settled Response) (S : CacheStorage),
        request.url.hostname ≠ "api.wmata.com" →
          onFetch request net S = cacheFirst request net S) ∧
    (∀ r1 r2 : Request, r1.url.hostname = r2.url.hostname →
        (∀ (net : Settled Response) (S : CacheStorage),
            onFetch r1 net S = networkFirst r1 net S ∧
            onFetch r2 net S = networkFirst r2 net S) ∨
        (∀ (net : Settled Response) (S : CacheStorage),
            onFetch r1 net S = cacheFirst r1 net S ∧
            onFetch r2 net S = cacheFirst r2 net S)) := by
  refine ⟨?_, ?_, ?_⟩
  · intro request net S h
    simp [onFetch, h]
  · intro request net S h
    simp [onFetch, h]
  · intro r1 r2 h
    by_cases hapi : r1.url.hostname = "api.wmata.com"
    · left
      intro net S
      have h2 : r2.url.hostname = "api.wmata.com" := h ▸ hapi
      simp [onFetch, hapi, h2]
    · right
      intro net S
      have h2 : ¬ r2.url.hostname = "api.wmata.com" := h ▸ hapi
      simp [onFetch, hapi, h2]

/-- Instance of C1: the API request goes network-first, the app shell request
cache-first, and a POST to another path, port and scheme of the API host is
handled by the same strategy as the API request. -/
theorem onFetch_dispatch_on_hostname_witness :
    onFetch apiRequest .rejected warmStorage = networkFirst apiRequest .rejected warmStorage ∧
    onFetch shellRequest .rejected warmStorage = cacheFirst shellRequest .rejected warmStorage ∧
    ((∀ (net : Settled Response) (S : CacheStorage),
        onFetch apiRequest net S = networkFirst apiRequest net S ∧
        onFetch apiPostRequest net S = networkFirst apiPostRequest net S) ∨
     (∀ (net : Settled Response) (S : CacheStorage),
        onFetch apiRequest net S = cacheFirst apiRequest net S ∧
        onFetch apiPostRequest net S = cacheFirst apiPostRequest net S)) :=
  ⟨onFetch_dispatch_on_hostname.1 apiRequest .rejected warmStorage rfl,
   onFetch_dispatch_on_hostname.2.1 shellRequest .rejected warmStorage (by decide),
   onFetch_dispatch_on_hostname.2.2 apiRequest apiPostRequest rfl⟩

/-! ## Network-first -/

/-- When the fetch of `networkFirst` is fulfilled with an ok response, that
response is returned; when `cache.put` accepts the pair, a later lookup of the
request in the current cache yields that response. -/
theorem networkFirst_ok_accepted_stores (request : Request) (response : Response)
    (S : CacheStorage) (hok : response.ok = true) :
    (networkFirst request (.fulfilled response) S).response = response ∧
    (putAccepts request response = true →
      storeMatch (networkFirst request (.fulfilled response) S).storage CACHE_NAME request
        = some response) := by
  have hres : networkFirst request (.fulfilled response) S
      = { response := response
          storage := (storePut (cachesOpen S CACHE_NAME) CACHE_NAME request response).2 } := by
    simp [networkFirst, hok]
  rw [hres]
  refine ⟨rfl, fun hacc => ?_⟩
  show storeMatch (storePut (cachesOpen S CACHE_NAME) CACHE_NAME request response).2
    CACHE_NAME request = some response
  rw [storePut_accepted _ _ _ _ hacc]
  exact storeMatch_storeReplace_same _ _ _ _ (cachesHas_cachesOpen S CACHE_NAME)

/-- C2 fails on the code: `networkFirst` calls `cache.put` for every ok
response without awaiting or catching it.  For a POST to the API answered 200
the put is refused: the live response is returned but a later lookup of the
request finds nothing and the storage is as before.  For a GET answered 206
(an ok status) the put is refused too, and the lookup still yields the older
snapshot. -/
theorem networkFirst_ok_refused_put_not_stored :
    okResponse.ok = true ∧
    (networkFirst apiPostRequest (.fulfilled okResponse) warmStorage).response = okResponse ∧
    storeMatch (networkFirst apiPostRequest (.fulfilled okResponse) warmStorage).storage
      CACHE_NAME apiPostRequest = none ∧
    (networkFirst apiPostRequest (.fulfilled okResponse) warmStorage).storage = warmStorage ∧
    (storePut warmStorage CACHE_NAME apiPostRequest okResponse).1 = .rejected ∧
    partialResponse.ok = true ∧
    (networkFirst apiRequest (.fulfilled partialResponse) warmStorage).response
      = partialResponse ∧
    storeMatch (networkFirst apiRequest (.fulfilled partialResponse) warmStorage).storage
      CACHE_NAME apiRequest = some staleResponse ∧
    staleResponse ≠ partialResponse := by
  decide

/-- C3: when the fetch of `networkFirst` is rejected and the current cache has
a snapshot for the request, that snapshot is returned and the storage is left
as it was. -/
theorem networkFirst_rejected_hit (request : Request) (snap : Response) (S : CacheStorage)
    (hsnap : storeMatch S CACHE_NAME request = some snap) :
    networkFirst request .rejected S = { response := snap, storage := S } := by
  have hhas := cachesHas_of_storeMatch S CACHE_NAME request snap hsnap
  simp only [networkFirst, cachesOpen_of_has S CACHE_NAME hhas, hsnap]

/-- Instance of C3 on the warm storage. -/
theorem networkFirst_rejected_hit_witness :
    storeMatch warmStorage CACHE_NAME apiRequest = some staleResponse ∧
    networkFirst apiRequest .rejected warmStorage
      = { response := staleResponse, storage := warmStorage } :=
  ⟨by decide, networkFirst_rejected_hit apiRequest staleResponse warmStorage (by decide)⟩

/-- C4: when the fetch of `networkFirst` is rejected and the current cache has
no snapshot for the request, the answer is the synthesized response with
status 503, header `Content-Type: application/json` and the JSON text of the
object with the single property `error`; the entries of every cache are
unchanged, and the storage itself is unchanged when the current cache
exists. -/
theorem networkFirst_rejected_miss (request : Request) (S : CacheStorage)
    (hmiss : storeMatch S CACHE_NAME request = none) :
    (networkFirst request .rejected S).response.status = 503 ∧
    (networkFirst request .rejected S).response.headers
      = [("Content-Type", "application/json")] ∧
    (networkFirst request .rejected S).response.body
      = JSON_stringify [("error", "Offline — no cached data available")] ∧
    (networkFirst request .rejected S).response.body
      = "\x7b\"error\":\"Offline — no cached data available\"\x7d" ∧
    (∀ name, storeOf (networkFirst request .rejected S).storage name = storeOf S name) ∧
    (cachesHas S CACHE_NAME = true → (networkFirst request .rejected S).storage = S) := by
  have hres : networkFirst request .rejected S
      = { response := offlineJsonResponse, storage := cachesOpen S CACHE_NAME } := by
    simp only [networkFirst, storeMatch_cachesOpen, hmiss]
  rw [hres]
  refine ⟨rfl, offlineJson_headers, rfl, offlineJson_body, ?_, ?_⟩
  · intro name
    exact storeOf_cachesOpen S CACHE_NAME name
  · intro hhas
    exact cachesOpen_of_has S CACHE_NAME hhas

/-- Instance of C4 on a storage whose current cache is empty. -/
theorem networkFirst_rejected_miss_witness :
    storeMatch emptyCurrent CACHE_NAME apiRequest = none ∧
    (networkFirst apiRequest .rejected emptyCurrent).response.status = 503 ∧
    (networkFirst apiRequest .rejected emptyCurrent).storage = emptyCurrent :=
  ⟨by decide, (networkFirst_rejected_miss apiRequest emptyCurrent (by decide)).1,
   (networkFirst_rejected_miss apiRequest emptyCurrent (by decide)).2.2.2.2.2 (by decide)⟩

/-- C10: a response with a status that is not ok is not a fetch failure for
`networkFirst`: the live response is returned for every storage, also one
holding a snapshot for the request (so neither that snapshot nor the
synthesized 503 is returned unless the live response is equal to it), and
nothing is stored. -/
theorem networkFirst_not_ok_returns_live (request : Request) (response : Response)
    (S : CacheStorage) (hok : response.ok = false) :
    (networkFirst request (.fulfilled response) S).response = response ∧
    (∀ snap, storeMatch S CACHE_NAME request = some snap → snap ≠ response →
        (networkFirst request (.fulfilled response) S).response ≠ snap) ∧
    (response ≠ offlineJsonResponse →
        (networkFirst request (.fulfilled response) S).response ≠ offlineJsonResponse) ∧
    (∀ name, storeOf (networkFirst request (.fulfilled response) S).storage name
        = storeOf S name) ∧
    (cachesHas S CACHE_NAME = true →
        (networkFirst request (.fulfilled response) S).storage = S) := by
  have hres : networkFirst request (.fulfilled response) S
      = { response := response, storage := cachesOpen S CACHE_NAME } := by
    simp [networkFirst, hok]
  rw [hres]
  refine ⟨rfl, ?_, ?_, ?_, ?_⟩
  · intro snap _ hne
    exact fun h => hne h.symm
  · intro hne
    exact hne
  · intro name
    exact storeOf_cachesOpen S CACHE_NAME name
  · intro hhas
    exact cachesOpen_of_has S CACHE_NAME hhas

/-- Instance of C10: a 404 for the API request while the cache holds a
snapshot for it. -/
theorem networkFirst_not_ok_returns_live_witness :
    notFoundResponse.ok = false ∧
    storeMatch warmStorage CACHE_NAME apiRequest = some staleResponse ∧
    (networkFirst apiRequest (.fulfilled notFoundResponse) warmStorage).response
      = notFoundResponse ∧
    (networkFirst apiRequest (.fulfilled notFoundResponse) warmStorage).storage = warmStorage :=
  ⟨by decide, by decide,
   (networkFirst_not_ok_returns_live apiRequest notFoundResponse warmStorage (by decide)).1,
   (networkFirst_not_ok_returns_live apiRequest notFoundResponse warmStorage
      (by decide)).2.2.2.2 (by decide)⟩

/-! ## Cache-first -/

theorem cacheFirst_hit_eq (request : Request) (cached : Response) (net : Settled Response)
    (S : CacheStorage) (hhit : storeMatch S CACHE_NAME request = some cached) :
    cacheFirst request net S
      = { response := cached, storage := (backgroundRefresh request net S).2 } := by
  have hhas := cachesHas_of_storeMatch S CACHE_NAME request cached hhit
  simp only [cacheFirst, cachesOpen_of_has S CACHE_NAME hhas, hhit]

theorem cacheFirst_miss_eq (request : Request) (net : Settled Response) (S : CacheStorage)
    (hmiss : storeMatch S CACHE_NAME request = none) :
    cacheFirst request net S =
      match net with
      | .fulfilled response =>
        if response.ok then
          { response := response
            storage := (storePut (cachesOpen S CACHE_NAME) CACHE_NAME request response).2 }
        else { response := response, storage := cachesOpen S CACHE_NAME }
      | .rejected => { response := offlineTextResponse, storage := cachesOpen S CACHE_NAME } := by
  simp only [cacheFirst, storeMatch_cachesOpen, hmiss]

/-- C5: when the current cache has a snapshot for the request, `cacheFirst`
returns that snapshot whatever the settlement of the background fetch, so the
response is the same for any two network outcomes. -/
theorem cacheFirst_hit_returns_snapshot (request : Request) (cached : Response)
    (S : CacheStorage) (hhit : storeMatch S CACHE_NAME request = some cached) :
    (∀ net : Settled Response, (cacheFirst request net S).response = cached) ∧
    (∀ net1 net2 : Settled Response,
        (cacheFirst request net1 S).response = (cacheFirst request net2 S).response) := by
  have h : ∀ net : Settled Response, (cacheFirst request net S).response = cached := by
    intro net
    rw [cacheFirst_hit_eq request cached net S hhit]
  exact ⟨h, fun net1 net2 => (h net1).trans (h net2).symm⟩

/-- Instance of C5: the stale page is served while the network answers with a
fresh one, with a 404, or not at all. -/
theorem cacheFirst_hit_returns_snapshot_witness :
    storeMatch warmStorage CACHE_NAME shellRequest = some staleResponse ∧
    (cacheFirst shellRequest (.fulfilled okResponse) warmStorage).response = staleResponse ∧
    (cacheFirst shellRequest (.fulfilled notFoundResponse) warmStorage).response
      = staleResponse ∧
    (cacheFirst shellRequest .rejected warmStorage).response = staleResponse :=
  ⟨by decide,
   (cacheFirst_hit_returns_snapshot shellRequest staleResponse warmStorage (by decide)).1 _,
   (cacheFirst_hit_returns_snapshot shellRequest staleResponse warmStorage (by decide)).1 _,
   (cacheFirst_hit_returns_snapshot shellRequest staleResponse warmStorage (by decide)).1 _⟩

/-- C6 as stated fails: with nothing cached for the request and a fetch that is
fulfilled with a 404, `cacheFirst` returns the 404 but stores nothing, so a
later lookup of the request finds no snapshot. -/
theorem cacheFirst_miss_not_ok_is_not_stored :
    storeMatch emptyCurrent CACHE_NAME shellRequest = none ∧
    (cacheFirst shellRequest (.fulfilled notFoundResponse) emptyCurrent).response
      = notFoundResponse ∧
    (cacheFirst shellRequest (.fulfilled notFoundResponse) emptyCurrent).storage
      = emptyCurrent ∧
    storeMatch (cacheFirst shellRequest (.fulfilled notFoundResponse) emptyCurrent).storage
      CACHE_NAME shellRequest = none ∧
    ¬ (storeMatch (cacheFirst shellRequest (.fulfilled notFoundResponse) emptyCurrent).storage
      CACHE_NAME shellRequest = some notFoundResponse) := by
  decide

/-- C6 amended: when the current cache has no snapshot for the request and the
fetch of `cacheFirst` is fulfilled, the network response is returned; when
moreover its status is ok and `cache.put` accepts the pair, a later lookup of
the request in the current cache yields that response. -/
theorem cacheFirst_miss_fulfilled (request : Request) (response : Response) (S : CacheStorage)
    (hmiss : storeMatch S CACHE_NAME request = none) :
    (cacheFirst request (.fulfilled response) S).response = response ∧
    (response.ok = true → putAccepts request response = true →
      storeMatch (cacheFirst request (.fulfilled response) S).storage CACHE_NAME request
        = some response) := by
  constructor
  · rw [cacheFirst_miss_eq request _ S hmiss]
    cases hok : response.ok <;> simp [hok]
  · intro hok hacc
    have hres : cacheFirst request (.fulfilled response) S
        = { response := response
            storage := storeReplace (cachesOpen S CACHE_NAME) CACHE_NAME request response } := by
      rw [cacheFirst_miss_eq request _ S hmiss]
      simp [hok, storePut_accepted _ _ _ _ hacc]
    rw [hres]
    exact storeMatch_storeReplace_same _ _ _ _ (cachesHas_cachesOpen S CACHE_NAME)

/-- Instance of amended C6: a fresh page is fetched into an empty cache. -/
theorem cacheFirst_miss_fulfilled_witness :
    storeMatch emptyCurrent CACHE_NAME shellRequest = none ∧
    okResponse.ok = true ∧ putAccepts shellRequest okResponse = true ∧
    (cacheFirst shellRequest (.fulfilled okResponse) emptyCurrent).response = okResponse ∧
    storeMatch (cacheFirst shellRequest (.fulfilled okResponse) emptyCurrent).storage
      CACHE_NAME shellRequest = some okResponse :=
  ⟨by decide, by decide, by decide,
   (cacheFirst_miss_fulfilled shellRequest okResponse emptyCurrent (by decide)).1,
   (cacheFirst_miss_fulfilled shellRequest okResponse emptyCurrent (by decide)).2
      (by decide) (by decide)⟩

/-- C7: when the current cache has no snapshot for the request and the fetch of
`cacheFirst` is rejected, the answer is the response constructed from the body
`Offline` and status 503 with no header set by the caller: its status is 503,
its body is `Offline`, and its only header is the Content-Type the constructor
gives a string body, `text/plain;charset=UTF-8`.  It differs from the offline
answer of `networkFirst`, which sets `application/json`.  The entries of every
cache are unchanged, and the storage itself is unchanged when the current
cache exists. -/
theorem cacheFirst_rejected_miss (request : Request) (S : CacheStorage)
    (hmiss : storeMatch S CACHE_NAME request = none) :
    (cacheFirst request .rejected S).response = newResponse "Offline" 503 [] ∧
    (cacheFirst request .rejected S).response.status = 503 ∧
    (cacheFirst request .rejected S).response.body = "Offline" ∧
    (cacheFirst request .rejected S).response.headers
      = [("Content-Type", "text/plain;charset=UTF-8")] ∧
    (cacheFirst request .rejected S).response ≠ (networkFirst request .rejected S).response ∧
    (cacheFirst request .rejected S).response.headers
      ≠ (networkFirst request .rejected S).response.headers ∧
    (∀ name, storeOf (cacheFirst request .rejected S).storage name = storeOf S name) ∧
    (cachesHas S CACHE_NAME = true → (cacheFirst request .rejected S).storage = S) := by
  have hnf : networkFirst request .rejected S
      = { response := offlineJsonResponse, storage := cachesOpen S CACHE_NAME } := by
    simp only [networkFirst, storeMatch_cachesOpen, hmiss]
  have hcf : cacheFirst request .rejected S
      = { response := offlineTextResponse, storage := cachesOpen S CACHE_NAME } := by
    rw [cacheFirst_miss_eq request _ S hmiss]
  rw [hcf, hnf]
  have hne : offlineTextResponse ≠ offlineJsonResponse := by decide
  have hneh : offlineTextResponse.headers ≠ offlineJsonResponse.headers := by decide
  have hst : offlineTextResponse.status = 503 := by decide
  have hbody : offlineTextResponse.body = "Offline" := by decide
  have hhd : offlineTextResponse.headers = [("Content-Type", "text/plain;charset=UTF-8")] := by
    decide
  refine ⟨rfl, hst, hbody, hhd, hne, hneh, ?_, ?_⟩
  · intro name
    exact storeOf_cachesOpen S CACHE_NAME name
  · intro hhas
    exact cachesOpen_of_has S CACHE_NAME hhas

/-- Instance of C7 on a storage whose current cache is empty. -/
theorem cacheFirst_rejected_miss_witness :
    storeMatch emptyCurrent CACHE_NAME shellRequest = none ∧
    (cacheFirst shellRequest .rejected emptyCurrent).response = newResponse "Offline" 503 [] ∧
    (cacheFirst shellRequest .rejected emptyCurrent).storage = emptyCurrent :=
  ⟨by decide, (cacheFirst_rejected_miss shellRequest emptyCurrent (by decide)).1,
   (cacheFirst_rejected_miss shellRequest emptyCurrent (by decide)).2.2.2.2.2.2.2 (by decide)⟩

/-- When `cacheFirst` serves the request from the cache, the background refresh
writes only after a fetch fulfilled with an ok response that `cache.put`
accepts: then the entry of the request becomes the fresh response, the lookup
of every other request and the entries of every other cache are unchanged.
After a response that is not ok, an ok response that `cache.put` refuses, or a
rejected fetch, the storage is unchanged.  In every case the caller receives
the cached response and the detached chain is fulfilled, not rejected. -/
theorem cacheFirst_hit_refresh_cases (request : Request) (cached : Response)
    (S : CacheStorage) (hhit : storeMatch S CACHE_NAME request = some cached) :
    (∀ fresh : Response, fresh.ok = true → putAccepts request fresh = true →
      (cacheFirst request (.fulfilled fresh) S).response = cached ∧
      storeMatch (cacheFirst request (.fulfilled fresh) S).storage CACHE_NAME request
        = some fresh ∧
      (∀ other, other ≠ request →
        storeMatch (cacheFirst request (.fulfilled fresh) S).storage CACHE_NAME other
          = storeMatch S CACHE_NAME other) ∧
      (∀ name, name ≠ CACHE_NAME →
        storeOf (cacheFirst request (.fulfilled fresh) S).storage name = storeOf S name) ∧
      cachesKeys (cacheFirst request (.fulfilled fresh) S).storage = cachesKeys S) ∧
    (∀ response : Response, response.ok = false ∨ putAccepts request response = false →
      cacheFirst request (.fulfilled response) S = { response := cached, storage := S }) ∧
    cacheFirst request .rejected S = { response := cached, storage := S } ∧
    (∀ net : Settled Response, (backgroundRefresh request net S).1 = .fulfilled ()) := by
  have hhas := cachesHas_of_storeMatch S CACHE_NAME request cached hhit
  refine ⟨?_, ?_, ?_, ?_⟩
  · intro fresh hok hacc
    have hres : cacheFirst request (.fulfilled fresh) S
        = { response := cached, storage := storeReplace S CACHE_NAME request fresh } := by
      rw [cacheFirst_hit_eq request cached _ S hhit]
      simp [backgroundRefresh, hok, storePut_accepted _ _ _ _ hacc]
    rw [hres]
    refine ⟨rfl, storeMatch_storeReplace_same _ _ _ _ hhas, ?_, ?_,
      cachesKeys_storeReplace _ _ _ _⟩
    · intro other hne
      exact storeMatch_storeReplace_other _ _ _ _ _ hhas hne
    · intro name hne
      exact storeOf_storeReplace_other _ _ _ _ _ hne
  · intro response hcase
    rw [cacheFirst_hit_eq request cached _ S hhit]
    cases hok : response.ok
    · simp [backgroundRefresh, hok]
    · have hacc : putAccepts request response = false := by
        rcases hcase with h | h
        · rw [hok] at h; cases h
        · exact h
      simp [backgroundRefresh, hok, storePut_refused _ _ _ _ hacc]
  · rw [cacheFirst_hit_eq request cached _ S hhit]
    simp [backgroundRefresh]
  · intro net
    cases net with
    | fulfilled response => cases hok : response.ok <;> simp [backgroundRefresh, hok]
    | rejected => simp [backgroundRefresh]

/-- C9 fails on the code: the background refresh of `cacheFirst` calls
`cache.put` for every ok response, outside the reach of its `catch`.  With a
snapshot stored for the request and a background fetch fulfilled with a 206
(an ok status), the put is refused: the entry of the request is not
overwritten with the fresh response, and the storage is as before. -/
theorem cacheFirst_hit_refused_put_not_overwritten :
    storeMatch warmStorage CACHE_NAME shellRequest = some staleResponse ∧
    partialResponse.ok = true ∧
    (cacheFirst shellRequest (.fulfilled partialResponse) warmStorage).response
      = staleResponse ∧
    storeMatch (cacheFirst shellRequest (.fulfilled partialResponse) warmStorage).storage
      CACHE_NAME shellRequest = some staleResponse ∧
    storeMatch (cacheFirst shellRequest (.fulfilled partialResponse) warmStorage).storage
      CACHE_NAME shellRequest ≠ some partialResponse ∧
    (cacheFirst shellRequest (.fulfilled partialResponse) warmStorage).storage = warmStorage ∧
    (storePut warmStorage CACHE_NAME shellRequest partialResponse).1 = .rejected ∧
    (backgroundRefresh shellRequest (.fulfilled partialResponse) warmStorage).1
      = .fulfilled () := by
  decide

/-! ## Install and activate -/

theorem filter_beq_of_nodup_mem (names : List String) (name : String)
    (hnodup : names.Nodup) (hmem : name ∈ names) :
    names.filter (fun k => k == name) = [name] := by
  induction names with
  | nil => cases hmem
  | cons k rest ih =>
    have hk : k ∉ rest := (List.nodup_cons.mp hnodup).1
    have hrest : rest.Nodup := (List.nodup_cons.mp hnodup).2
    by_cases h : k = name
    · subst h
      have hnone : rest.filter (fun x => x == k) = [] := by
        rw [List.filter_eq_nil_iff]
        intro x hx hbeq
        exact hk ((eq_of_beq hbeq) ▸ hx)
      simp [List.filter_cons, hnone]
    · have hmem2 : name ∈ rest := by
        rcases List.mem_cons.mp hmem with h1 | h1
        · exact absurd h1.symm h
        · exact h1
      simp [List.filter_cons, h, ih hrest hmem2]

theorem cachesKeys_storeAddAll_fold (name : String)
    (fetched : List (Request × Settled Response)) (S : CacheStorage) :
    cachesKeys (fetched.foldl (fun acc p => match p.2 with
      | .fulfilled response => storeReplace acc name p.1 response
      | .rejected => acc) S) = cachesKeys S := by
  induction fetched generalizing S with
  | nil => rfl
  | cons p rest ih =>
    rw [List.foldl_cons, ih]
    cases p.2 with
    | fulfilled response => exact cachesKeys_storeReplace _ _ _ _
    | rejected => rfl

theorem cachesKeys_storeAddAll (S : CacheStorage) (name : String) (requests : List Request)
    (net : Request → Settled Response) :
    cachesKeys (storeAddAll S name requests net).2 = cachesKeys S := by
  unfold storeAddAll
  simp only []
  split
  · exact cachesKeys_storeAddAll_fold _ _ _
  · rfl

theorem cachesKeys_cachesOpen (S : CacheStorage) (name : String) :
    cachesKeys (cachesOpen S name)
      = if name ∈ cachesKeys S then cachesKeys S else cachesKeys S ++ [name] := by
  by_cases h : cachesHas S name = true
  · rw [cachesOpen_of_has S name h, if_pos ((cachesHas_iff_mem_keys S name).mp h)]
  · have hopen : cachesOpen S name = S ++ [(name, [])] := by simp [cachesOpen, h]
    rw [hopen, if_neg (fun hm => h ((cachesHas_iff_mem_keys S name).mpr hm))]
    simp [cachesKeys]

/-- The install phase leaves the current cache in existence, whether the
pre-caching succeeds or not, and creates no duplicate name. -/
theorem onInstall_creates_current (resolve : String → Request)
    (net : Request → Settled Response) (S : CacheStorage) (hnodup : (cachesKeys S).Nodup) :
    CACHE_NAME ∈ cachesKeys (onInstall resolve net S).2 ∧
    (cachesKeys (onInstall resolve net S).2).Nodup := by
  unfold onInstall
  rw [cachesKeys_storeAddAll, cachesKeys_cachesOpen]
  by_cases h : CACHE_NAME ∈ cachesKeys S
  · rw [if_pos h]
    exact ⟨h, hnodup⟩
  · rw [if_neg h]
    refine ⟨by simp, ?_⟩
    rw [List.nodup_append]
    refine ⟨hnodup, List.nodup_singleton _, ?_⟩
    intro k hk hk2
    rw [List.mem_singleton] at hk2
    exact h (hk2 ▸ hk)

/-- Install followed by activate leaves exactly the current cache. -/
theorem onActivate_after_onInstall (resolve : String → Request)
    (net : Request → Settled Response) (S : CacheStorage) (hnodup : (cachesKeys S).Nodup) :
    cachesKeys (onActivate (onInstall resolve net S).2) = [CACHE_NAME] := by
  have h := onInstall_creates_current resolve net S hnodup
  rw [cachesKeys_onActivate]
  exact filter_beq_of_nodup_mem _ _ h.2 h.1

/-- Activate only deletes: on a storage in which install has not created the
current cache, no cache is left after it. -/
theorem onActivate_without_install :
    onActivate [] = [] ∧
    cachesKeys (onActivate [("metro-tracker-v0", [(shellRequest, staleResponse)])]) = [] := by
  decide

/-- C8: after the activate phase, no cache with a name other than `CACHE_NAME`
exists, whatever the storage was.  For every set of existing caches (names
pairwise distinct, as the names in a cache storage are), after the install
phase and then the activate phase the enumeration of caches is exactly
`CACHE_NAME`; the same holds for activate on any such set in which the current
cache exists, and the entries of the current cache are untouched. -/
theorem onActivate_leaves_only_current :
    (∀ (S : CacheStorage) (k : String), k ≠ CACHE_NAME → k ∉ cachesKeys (onActivate S)) ∧
    (∀ (resolve : String → Request) (net : Request → Settled Response) (S : CacheStorage),
        (cachesKeys S).Nodup →
          cachesKeys (onActivate (onInstall resolve net S).2) = [CACHE_NAME]) ∧
    (∀ S : CacheStorage, (cachesKeys S).Nodup → CACHE_NAME ∈ cachesKeys S →
        cachesKeys (onActivate S) = [CACHE_NAME] ∧
        storeOf (onActivate S) CACHE_NAME = storeOf S CACHE_NAME) := by
  refine ⟨?_, ?_, ?_⟩
  · intro S k hne hk
    rw [cachesKeys_onActivate] at hk
    exact hne (eq_of_beq (List.mem_filter.mp hk).2)
  · intro resolve net S hnodup
    exact onActivate_after_onInstall resolve net S hnodup
  · intro S hnodup hcur
    refine ⟨?_, storeOf_onActivate_current S⟩
    rw [cachesKeys_onActivate]
    exact filter_beq_of_nodup_mem _ _ hnodup hcur

/-- Instance of C8: starting from a storage holding only an older generation,
install (whose fetches all fail) and activate leave exactly the current
cache; on the warm storage the older generation is gone after activate. -/
theorem onActivate_leaves_only_current_witness :
    cachesKeys (onActivate (onInstall (fun _ => shellRequest) (fun _ => .rejected)
      [("metro-tracker-v0", [(shellRequest, staleResponse)])]).2) = [CACHE_NAME] ∧
    cachesKeys (onActivate (onInstall (fun _ => shellRequest) (fun _ => .fulfilled okResponse)
      []).2) = [CACHE_NAME] ∧
    "metro-tracker-v0" ∉ cachesKeys (onActivate warmStorage) ∧
    cachesKeys (onActivate warmStorage) = [CACHE_NAME] :=
  ⟨onActivate_leaves_only_current.2.1 (fun _ => shellRequest) (fun _ => .rejected)
      [("metro-tracker-v0", [(shellRequest, staleResponse)])] (by decide),
   onActivate_leaves_only_current.2.1 (fun _ => shellRequest) (fun _ => .fulfilled okResponse)
      [] (by decide),
   onActivate_leaves_only_current.1 warmStorage "metro-tracker-v0" (by decide),
   (onActivate_leaves_only_current.2.2 warmStorage (by decide) (by decide)).1⟩

end MetroTracker
